import Mathlib

/-
Verification development for the MCP tool-loading subsystem
(src/utils/mcp_utils.py, src/utils/mcp_manager.py,
src/tools/function/validator/validate_tools.py).

The Python code is shallowly embedded: JSON values are an inductive type,
Python dicts are association lists with insertion-order update semantics,
a raised Python exception is the `raised` constructor of `PyResult`, and
all I/O (file reads, server connections, remote calls) is supplied by
explicit environment parameters.  Numbers are modelled as integers (no
claim exercises floating point JSON numbers).
-/

/-- Result of a Python call: either a normally returned value or a raised
exception, identified by its message text. -/
inductive PyResult (α : Type) where
  | ret (a : α)
  | raised (e : String)
deriving Repr, DecidableEq

/-- Sequencing of Python computations: a raised exception propagates. -/
instance : Monad PyResult where
  pure := .ret
  bind r f := match r with
    | .ret a => f a
    | .raised e => .raised e

/-- JSON values, as produced by json.loads and consumed by json.dumps.
Objects keep insertion order, like Python dicts. -/
inductive Json where
  | null
  | bool (b : Bool)
  | num (n : Int)
  | str (s : String)
  | arr (xs : List Json)
  | obj (o : List (String × Json))
deriving Repr

mutual
/-- Structural boolean equality on JSON values (Python == on these shapes). -/
def Json.eqb : Json → Json → Bool
  | .null, .null => true
  | .bool a, .bool b => a = b
  | .num a, .num b => a = b
  | .str a, .str b => a = b
  | .arr xs, .arr ys => eqbList xs ys
  | .obj o1, .obj o2 => eqbObj o1 o2
  | _, _ => false

/-- Elementwise equality of JSON arrays. -/
def eqbList : List Json → List Json → Bool
  | [], [] => true
  | x :: xs, y :: ys => Json.eqb x y && eqbList xs ys
  | _, _ => false

/-- Pairwise equality of JSON object entries (order sensitive, like
comparing the underlying association lists). -/
def eqbObj : List (String × Json) → List (String × Json) → Bool
  | [], [] => true
  | (k1, v1) :: xs, (k2, v2) :: ys => k1 = k2 && Json.eqb v1 v2 && eqbObj xs ys
  | _, _ => false
end

/-- Lookup in a Python dict (first binding wins; keys are unique in dicts
built by pySet). -/
def pyGet (o : List (String × Json)) (k : String) : Option Json :=
  match o with
  | [] => none
  | (k', v) :: rest => if k' = k then some v else pyGet rest k

/-- Key membership in a Python dict. -/
def hasKey (o : List (String × Json)) (k : String) : Bool :=
  o.any (fun p => p.1 = k)

/-- Python dict assignment d[k] = v: an existing key keeps its position and
gets the new value, a new key is appended at the end. -/
def pySet (o : List (String × Json)) (k : String) (v : Json) : List (String × Json) :=
  match o with
  | [] => [(k, v)]
  | (k', v') :: rest =>
    if k' = k then (k', v) :: rest else (k', v') :: pySet rest k v

/-- Python truthiness of a JSON-shaped value. -/
def pyTruthy : Json → Bool
  | .null => false
  | .bool b => b
  | .num n => n != 0
  | .str s => s != ""
  | .arr [] => false
  | .arr (_ :: _) => true
  | .obj [] => false
  | .obj (_ :: _) => true

/-- Characters stripped by str.strip with no arguments. -/
def isPySpace (c : Char) : Bool :=
  c = ' ' ∨ c = '\t' ∨ c = '\n' ∨ c = '\r' ∨ c = '\x0b' ∨ c = '\x0c'

/-- Python str.strip: whitespace removed from both ends. -/
def pyStrip (s : String) : String :=
  String.mk (((s.data.dropWhile isPySpace).reverse.dropWhile isPySpace).reverse)

/-- Test whether the first list is a prefix of the second. -/
def startsWithChars : List Char → List Char → Bool
  | [], _ => true
  | _ :: _, [] => false
  | p :: ps, c :: cs => p = c && startsWithChars ps cs

/-- Helper for pyReplace: scan with explicit fuel. -/
def pyReplaceAux (pat rep : List Char) : Nat → List Char → List Char
  | 0, s => s
  | _ + 1, [] => []
  | fuel + 1, c :: cs =>
    if pat ≠ [] ∧ startsWithChars pat (c :: cs) then
      rep ++ pyReplaceAux pat rep fuel ((c :: cs).drop pat.length)
    else
      c :: pyReplaceAux pat rep fuel cs

/-- Python str.replace(old, new): non-overlapping replacement left to right. -/
def pyReplace (s pat rep : String) : String :=
  String.mk (pyReplaceAux pat.data rep.data s.data.length s.data)

/-- Escape one character the way json.dumps quotes it (the characters used
in this development need no unicode escapes). -/
def escChar (c : Char) : String :=
  if c = '"' then "\\\""
  else if c = '\\' then "\\\\"
  else if c = '\n' then "\\n"
  else if c = '\t' then "\\t"
  else if c = '\r' then "\\r"
  else String.singleton c

/-- Quote a string the way json.dumps does. -/
def pyQuote (s : String) : String :=
  "\"" ++ String.join (s.data.map escChar) ++ "\""

mutual
/-- Embedding of json.dumps with its default separators (a comma plus a
space between items, a colon plus a space after keys). -/
def Json.dumps : Json → String
  | .null => "null"
  | .bool true => "true"
  | .bool false => "false"
  | .num n => toString n
  | .str s => pyQuote s
  | .arr xs => "[" ++ dumpsList xs ++ "]"
  | .obj o => "\x7b" ++ dumpsObj o ++ "\x7d"

/-- Serialize array elements, comma-space separated. -/
def dumpsList : List Json → String
  | [] => ""
  | [x] => Json.dumps x
  | x :: y :: rest => Json.dumps x ++ ", " ++ dumpsList (y :: rest)

/-- Serialize object members, comma-space separated. -/
def dumpsObj : List (String × Json) → String
  | [] => ""
  | [p] => pyQuote p.1 ++ ": " ++ Json.dumps p.2
  | p :: q :: rest => pyQuote p.1 ++ ": " ++ Json.dumps p.2 ++ ", " ++ dumpsObj (q :: rest)
end

/-- Skip JSON whitespace. -/
def skipWs : List Char → List Char
  | [] => []
  | c :: cs => if c = ' ' ∨ c = '\t' ∨ c = '\n' ∨ c = '\r' then skipWs cs else c :: cs

/-- Parse the body of a JSON string literal after the opening quote.
Accumulates in reverse; supports the standard single-character escapes. -/
def parseStrAux : List Char → List Char → Option (String × List Char)
  | _, [] => none
  | acc, c :: cs =>
    if c = '"' then some (String.mk acc.reverse, cs)
    else if c = '\\' then
      match cs with
      | [] => none
      | e :: cs' =>
        if e = '"' then parseStrAux ('"' :: acc) cs'
        else if e = '\\' then parseStrAux ('\\' :: acc) cs'
        else if e = '/' then parseStrAux ('/' :: acc) cs'
        else if e = 'n' then parseStrAux ('\n' :: acc) cs'
        else if e = 't' then parseStrAux ('\t' :: acc) cs'
        else if e = 'r' then parseStrAux ('\r' :: acc) cs'
        else if e = 'b' then parseStrAux ('\x08' :: acc) cs'
        else if e = 'f' then parseStrAux ('\x0c' :: acc) cs'
        else none
    else if c.val < 32 then none
    else parseStrAux (c :: acc) cs

/-- Consume a run of decimal digits. -/
def digitsToNat : Nat → List Char → Nat × List Char
  | acc, [] => (acc, [])
  | acc, c :: cs =>
    if c.isDigit then digitsToNat (acc * 10 + (c.toNat - 48)) cs else (acc, c :: cs)

/-- Parse an integer JSON number (a following dot or exponent is rejected:
floating point numbers are outside this model). -/
def parseIntNum (cs : List Char) : Option (Json × List Char) :=
  match cs with
  | '-' :: rest =>
    match rest with
    | c :: _ =>
      if c.isDigit then
        match digitsToNat 0 rest with
        | (n, r) =>
          match r with
          | '.' :: _ => none
          | 'e' :: _ => none
          | 'E' :: _ => none
          | _ => some (.num (-(n : Int)), r)
      else none
    | [] => none
  | c :: _ =>
    if c.isDigit then
      match digitsToNat 0 cs with
      | (n, r) =>
        match r with
        | '.' :: _ => none
        | 'e' :: _ => none
        | 'E' :: _ => none
        | _ => some (.num (n : Int), r)
    else none
  | [] => none

mutual
/-- Fueled recursive-descent JSON parser (the shape accepted by Python
json.loads, restricted to integer numbers). -/
def parseValue : Nat → List Char → Option (Json × List Char)
  | 0, _ => none
  | fuel + 1, cs0 =>
    match skipWs cs0 with
    | [] => none
    | c :: rest =>
      if c = 'n' then
        if startsWithChars ['u', 'l', 'l'] rest then some (.null, rest.drop 3) else none
      else if c = 't' then
        if startsWithChars ['r', 'u', 'e'] rest then some (.bool true, rest.drop 3) else none
      else if c = 'f' then
        if startsWithChars ['a', 'l', 's', 'e'] rest then some (.bool false, rest.drop 4) else none
      else if c = '"' then
        match parseStrAux [] rest with
        | some (s, r) => some (.str s, r)
        | none => none
      else if c = '[' then
        match skipWs rest with
        | ']' :: r => some (.arr [], r)
        | other =>
          match parseValue fuel other with
          | some (v, r) => parseArrTail fuel r [v]
          | none => none
      else if c = '\x7b' then
        match skipWs rest with
        | '\x7d' :: r => some (.obj [], r)
        | other => parseMember fuel other []
      else
        parseIntNum (c :: rest)

/-- Parse the rest of an array after at least one element (accumulator is
reversed). -/
def parseArrTail : Nat → List Char → List Json → Option (Json × List Char)
  | 0, _, _ => none
  | fuel + 1, cs, acc =>
    match skipWs cs with
    | ',' :: r =>
      match parseValue fuel r with
      | some (v, r') => parseArrTail fuel r' (v :: acc)
      | none => none
    | ']' :: r => some (.arr acc.reverse, r)
    | _ => none

/-- Parse one object member (key, colon, value) then continue with the
object tail.  Duplicate keys behave like Python: the later value wins and
the key keeps its first position. -/
def parseMember : Nat → List Char → List (String × Json) → Option (Json × List Char)
  | 0, _, _ => none
  | fuel + 1, cs, acc =>
    match skipWs cs with
    | '"' :: r =>
      match parseStrAux [] r with
      | some (k, r1) =>
        match skipWs r1 with
        | ':' :: r2 =>
          match parseValue fuel r2 with
          | some (v, r3) => parseObjTail fuel r3 (pySet acc k v)
          | none => none
        | _ => none
      | none => none
    | _ => none

/-- Parse the separator or closer after an object member. -/
def parseObjTail : Nat → List Char → List (String × Json) → Option (Json × List Char)
  | 0, _, _ => none
  | fuel + 1, cs, acc =>
    match skipWs cs with
    | ',' :: r => parseMember fuel r acc
    | '\x7d' :: r => some (.obj acc, r)
    | _ => none
end

/-- Embedding of json.loads: parse one value, allow trailing whitespace,
reject trailing garbage.  A none result corresponds to json.JSONDecodeError. -/
def json_loads (s : String) : Option Json :=
  match parseValue (s.data.length + 2) s.data with
  | some (j, rest) => if skipWs rest = [] then some j else none
  | none => none

/-
Embedding of the tool adapter produced by wrap_tools in
src/utils/mcp_utils.py (the inner function named wrapper, lines 128-170).
The positional arguments of a call are a list of JSON-shaped values and
the keyword arguments are a Python dict.  The behaviour of the wrapped
tool object (ToolClass.call) is abstracted as a function from the
serialized payload to a PyResult.
-/

/-- The fragment fix attempted by the wrapper when a kwargs fragment is
not valid JSON: replace every occurrence of equals-quote with
colon-quote, then (a no-op, since the first pass already consumed every
such occurrence) quote-equals-quote with quote-colon-quote. -/
def fixFragment (s : String) : String :=
  pyReplace (pyReplace s "=\"" ":\"") "\"=\"" "\":\""

/-- Merge a parsed dict into the accumulated params, entry by entry, the
way dict.update does for a dict argument. -/
def pyUpdateObj (p : List (String × Json)) (o : List (String × Json)) : List (String × Json) :=
  o.foldl (fun acc kv => pySet acc kv.1 kv.2) p

/-- Embedding of dict.update with an arbitrary argument.  A dict argument
merges; a list argument must consist of two-element key-value pairs with
string keys (the only pair shape expressible with string-keyed dicts); an
empty string iterates nothing; every other argument raises. -/
def pyUpdate (p : List (String × Json)) (j : Json) : PyResult (List (String × Json)) :=
  match j with
  | .obj o => .ret (pyUpdateObj p o)
  | .arr xs =>
    xs.foldlM (fun acc el =>
      match el with
      | .arr [.str k, v] => PyResult.ret (pySet acc k v)
      | _ => PyResult.raised "ValueError: dictionary update sequence element is not a pair")
      p
  | .str "" => .ret p
  | _ => .raised "TypeError: update argument is not iterable of key-value pairs"

/-- Processing of the kwargs fragment (mcp_utils.py lines 144-153): if the
value is truthy and strips to a nonempty string, parse it as JSON; on a
parse failure retry once on the fixed text; if that also fails, drop the
fragment silently.  A truthy non-string value raises AttributeError at
the strip call. -/
def parseKwargsFragment (v : Json) (params : List (String × Json)) :
    PyResult (List (String × Json)) :=
  if pyTruthy v then
    match v with
    | .str s =>
      if pyStrip s = "" then .ret params
      else
        match json_loads s with
        | some j => pyUpdate params j
        | none =>
          match json_loads (fixFragment s) with
          | some j => pyUpdate params j
          | none => .ret params
    | _ => .raised "AttributeError: object has no attribute strip"
  else .ret params

/-- Processing of the args fragment (mcp_utils.py lines 155-162): if the
value is truthy and strips to a nonempty string, parse it as JSON; the
parsed value is merged only when it is a dict; a parse failure or a
non-dict parse is dropped silently, with no fix-and-retry. -/
def parseArgsFragment (v : Json) (params : List (String × Json)) :
    PyResult (List (String × Json)) :=
  if pyTruthy v then
    match v with
    | .str s =>
      if pyStrip s = "" then .ret params
      else
        match json_loads s with
        | some (.obj o) => .ret (pyUpdateObj params o)
        | some _ => .ret params
        | none => .ret params
    | _ => .raised "AttributeError: object has no attribute strip"
  else .ret params

/-- Payload normalization of the wrapper (mcp_utils.py lines 139-167):
when both the args and the kwargs keys are present, build the params dict
from the kwargs fragment first and the args fragment second and serialize
it; otherwise a leading positional dict is serialized; otherwise the
keyword dict itself is serialized. -/
def normalize_payload (posArgs : List Json) (kwargs : List (String × Json)) :
    PyResult String :=
  if hasKey kwargs "args" ∧ hasKey kwargs "kwargs" then
    let args_v := (pyGet kwargs "args").getD (.str "")
    let kwargs_v := (pyGet kwargs "kwargs").getD (.str "")
    match parseKwargsFragment kwargs_v [] with
    | .raised e => .raised e
    | .ret params =>
      match parseArgsFragment args_v params with
      | .raised e => .raised e
      | .ret params' => .ret (Json.dumps (.obj params'))
  else
    match posArgs with
    | .obj o :: _ => .ret (Json.dumps (.obj o))
    | _ => .ret (Json.dumps (.obj kwargs))

/-- Body of the wrapper before the enclosing try-except: normalize the
payload and hand it to the tool object.  The call argument abstracts
ToolClass.call, which returns a string or raises. -/
def wrapper_inner (call : String → PyResult String) (posArgs : List Json)
    (kwargs : List (String × Json)) : PyResult String :=
  match normalize_payload posArgs kwargs with
  | .raised e => .raised e
  | .ret pj => call pj

/-- The wrapper itself (mcp_utils.py lines 128-170): the whole body runs
inside try-except Exception, and an exception becomes the string
Tool call error followed by the detail. -/
def wrapper (call : String → PyResult String) (posArgs : List Json)
    (kwargs : List (String × Json)) : PyResult String :=
  match wrapper_inner call posArgs kwargs with
  | .raised e => .ret ("Tool call error: " ++ e)
  | .ret s => .ret s

/-- Argument decoding performed by ToolClass.call (mcp_manager.py lines
427-431) on the serialized payload it receives from the wrapper: a string
parameter is decoded with json.loads before being dispatched to
execute_function. -/
def toolCallDispatchArgs (params : String) : Option Json :=
  json_loads params

/-
Embedding of MCPManager config handling (src/utils/mcp_manager.py).
Connections are I/O, so connection_server is abstracted by an
environment: for each server name and descriptor it yields either the
connected state (session behaviour, advertised tools, resource support,
resource templates) or a connection failure.
-/

/-- One content part of a remote call response (mcp response.content). -/
structure ContentItem where
  ctype : String
  text : String
deriving Repr, DecidableEq

/-- One content part of a read_resource response: either text contents or
a non-text (blob) part, which execute_function ignores. -/
inductive ResContent where
  | text (s : String)
  | blob
deriving Repr, DecidableEq

/-- Observable behaviour of one live session: whether its liveness probe
(send_ping) succeeds, and what the remote side answers to call_tool,
list_resources and read_resource.  Raised errors are the error side. -/
structure SessionBeh where
  pingOk : Bool
  callTool : String → List (String × Json) → PyResult (List ContentItem)
  listRes : PyResult (List String)
  readRes : Json → PyResult (List ResContent)

/-- Model of an MCPClient as far as execute_function observes it: the
registered identifier and the current session (none when no session was
established). -/
structure ClientM where
  clientId : Option String
  session : Option SessionBeh

/-- Map from client identifiers to clients (MCPManager.clients). -/
abbrev ClientMap := List (String × ClientM)

/-- Lookup in the clients map. -/
def clientsGet (m : ClientMap) (k : String) : Option ClientM :=
  match m with
  | [] => none
  | (k', v) :: rest => if k' = k then some v else clientsGet rest k

/-- Assignment in the clients map, with Python dict semantics. -/
def clientsSet (m : ClientMap) (k : String) (v : ClientM) : ClientMap :=
  match m with
  | [] => [(k, v)]
  | (k', v') :: rest =>
    if k' = k then (k', v) :: rest else (k', v') :: clientsSet rest k v

/-- Embedding of MCPManager.is_valid_mcp_servers (mcp_manager.py lines
248-291): the top level must be a dict with a dict under mcpServers; each
server entry must be a dict; a present command must be a string and then
args must be present and a list; a present url must be a string and a
present headers a dict; a present env must be a dict. -/
def validServer (server : Json) : Bool :=
  match server with
  | .obj s =>
    (match pyGet s "command" with
     | none => true
     | some (.str _) =>
       (match pyGet s "args" with
        | some (.arr _) => true
        | _ => false)
     | some _ => false) &&
    (match pyGet s "url" with
     | none => true
     | some (.str _) =>
       (match pyGet s "headers" with
        | none => true
        | some (.obj _) => true
        | _ => false)
     | some _ => false) &&
    (match pyGet s "env" with
     | none => true
     | some (.obj _) => true
     | _ => false)
  | _ => false

/-- Top-level shape check of a config document. -/
def is_valid_mcp_servers (config : Json) : Bool :=
  match config with
  | .obj o =>
    match pyGet o "mcpServers" with
    | some (.obj servers) => servers.all (fun p => validServer p.2)
    | _ => false
  | _ => false

/-- Transport chosen by MCPClient.connection_server (mcp_manager.py lines
493-527): a url entry goes to streamable-http when its type field says
so, to SSE otherwise; everything else goes down the stdio subprocess
path. -/
inductive Route where
  | streamableHttp
  | sse
  | stdio
deriving Repr, DecidableEq

/-- Dispatch of connection_server on the shape of one server entry. -/
def connectionRoute (server : List (String × Json)) : Route :=
  if hasKey server "url" then
    if Json.eqb ((pyGet server "type").getD (.str "sse")) (.str "streamable-http") then .streamableHttp
    else .sse
  else .stdio

/-- Modelled from the spec: the two ServerDescriptor shapes of section 3,
a subprocess descriptor declaring command (with args, env optional) or a
network descriptor declaring url (headers and timeouts optional).  Used
to compare what validation accepts against the declared data model. -/
def isCommandDescriptor (server : List (String × Json)) : Bool :=
  hasKey server "command"

/-- Modelled from the spec: the network ServerDescriptor shape of
section 3, distinguished by its url key. -/
def isUrlDescriptor (server : List (String × Json)) : Bool :=
  hasKey server "url"

/-- First step of the schema sanitization in MCPManager.init_config_async
(mcp_manager.py lines 336-338): a missing required key is defaulted to
the empty list. -/
def withRequiredDefault (parameters : List (String × Json)) : List (String × Json) :=
  if hasKey parameters "required" then parameters
  else pySet parameters "required" (.arr [])

/-- Schema sanitization applied to each discovered operation by
MCPManager.init_config_async (mcp_manager.py lines 335-351): default a
missing required to the empty list, fail when type or properties is still
missing, and keep exactly the three standard keys. -/
def sanitizeSchema (parameters : List (String × Json)) : PyResult (List (String × Json)) :=
  if hasKey (withRequiredDefault parameters) "type" = false ∨
      hasKey (withRequiredDefault parameters) "properties" = false then
    .raised "ValueError: Missing required fields in schema"
  else
    .ret [("type", (pyGet (withRequiredDefault parameters) "type").getD .null),
          ("properties", (pyGet (withRequiredDefault parameters) "properties").getD .null),
          ("required", (pyGet (withRequiredDefault parameters) "required").getD .null)]

/-- One operation advertised by a connected server: name, description and
raw inputSchema. -/
structure MCPToolSpec where
  name : String
  description : String
  inputSchema : List (String × Json)

/-- Outcome of one connection_server attempt, supplied by the
environment: the session behaviour plus the discovery results, or a
connection failure. -/
inductive InitConnect where
  | ok (beh : SessionBeh) (tools : List MCPToolSpec) (resources : Bool)
      (templates : List String)
  | fail (e : String)

/-- Registered tool object (an instance of the ToolClass built by
MCPManager.create_tool_class): registered name, description, sanitized
parameters and owning client identifier. -/
structure ToolModel where
  name : String
  description : String
  parameters : List (String × Json)
  client_id : String

/-- Registry state visible to initConfig: the clients map and the
counter driving fresh uuid strings. -/
structure MState where
  clients : ClientMap
  uuidSeq : Nat

/-- Model of str(uuid.uuid4()) as a fresh string per draw. -/
def uuidStr (n : Nat) : String :=
  "uuid-" ++ toString n

/-- Fixed parameters of the synthetic list_resources tool. -/
def listResourcesParams : List (String × Json) :=
  [("type", .str "object"), ("properties", .obj []), ("required", .arr [])]

/-- Fixed parameters of the synthetic read_resource tool. -/
def readResourceParams : List (String × Json) :=
  [("type", .str "object"),
   ("properties", .obj [("uri", .obj [("type", .str "string"),
     ("description", .str "The URI identifying the specific resource to access")])]),
   ("required", .arr [.str "uri"])]

/-- Description of the synthetic read_resource tool before templates are
appended. -/
def readResourceBaseDesc : String :=
  "Request to access a resource provided by a connected MCP server. Resources represent data sources that can be used as context, such as files, API responses, or system information."

/-- Sanitize and register the tools of one connected server
(mcp_manager.py lines 319-358), stopping at the first malformed schema. -/
def registerTools (serverName : String) (cid : String) :
    List MCPToolSpec → PyResult (List ToolModel)
  | [] => .ret []
  | t :: rest => do
    let cleaned ← sanitizeSchema t.inputSchema
    let more ← registerTools serverName cid rest
    pure (⟨serverName ++ "-" ++ t.name, t.description, cleaned, cid⟩ :: more)

/-- Synthetic resource tools added when a server reports resources
(mcp_manager.py lines 360-415). -/
def resourceTools (serverName : String) (cid : String) (templates : List String) :
    List ToolModel :=
  let readDesc :=
    if templates ≠ [] then
      readResourceBaseDesc ++ "\nResource Templates:\n" ++ String.intercalate "\n" templates
    else readResourceBaseDesc
  [⟨serverName ++ "-" ++ "list_resources",
    "Servers expose a list of concrete resources through this tool. By invoking it, you can discover the available resources and obtain resource templates, which help clients understand how to construct valid URIs. These URI formats will be used as input parameters for the read_resource function. ",
    listResourcesParams, cid⟩,
   ⟨serverName ++ "-" ++ "read_resource", readDesc, readResourceParams, cid⟩]

/-- Per-server body of init_config_async (mcp_manager.py lines 309-415):
connect, register the client under a fresh identifier, then adapt every
advertised tool; the client registration happens before the tool loop, so
a schema failure leaves the client registered.  The third component
records which servers a connection was attempted for. -/
def initServers (env : String → Json → InitConnect) :
    List (String × Json) → MState → PyResult (List ToolModel) × MState × List String
  | [], st => (.ret [], st, [])
  | (name, server) :: rest, st =>
    match env name server with
    | .fail e => (.raised e, st, [name])
    | .ok beh tools resources templates =>
      let cid := name ++ "_" ++ uuidStr st.uuidSeq
      let client : ClientM := ⟨some cid, some beh⟩
      let st1 : MState := ⟨clientsSet st.clients cid client, st.uuidSeq + 1⟩
      match registerTools name cid tools with
      | .raised e => (.raised e, st1, [name])
      | .ret adapted =>
        let withRes := if resources then adapted ++ resourceTools name cid templates
                       else adapted
        match initServers env rest st1 with
        | (.raised e, st2, names) => (.raised e, st2, name :: names)
        | (.ret more, st2, names) => (.ret (withRes ++ more), st2, name :: names)

/-- Embedding of MCPManager.initConfig (mcp_manager.py lines 293-304):
reject an invalid shape with ValueError before any connection work,
otherwise run init_config_async on the shared loop and propagate its
result or its exception. -/
def initConfig (env : String → Json → InitConnect) (config : Json) (st : MState) :
    PyResult (List ToolModel) × MState × List String :=
  if is_valid_mcp_servers config = false then
    (.raised "ValueError: Config of mcpservers is not valid", st, [])
  else
    match config with
    | .obj o =>
      match pyGet o "mcpServers" with
      | some (.obj servers) => initServers env servers st
      | _ => (.raised "model: unreachable for a validated config", st, [])
    | _ => (.raised "model: unreachable for a validated config", st, [])

/-- Outcome of reading and decoding the config file, supplied by the
environment: the file is missing, its content is not JSON, or it decodes
to a JSON document. -/
inductive FileOutcome where
  | missing
  | badJson
  | content (j : Json)

/-- Embedding of load_mcp_config (mcp_utils.py lines 64-97) on the
return_callable=False path: open and decode the file, run initConfig,
and catch every exception, returning the empty list in that case.  The
state reached before the exception is kept (partially registered clients
are not rolled back). -/
def load_mcp_config (env : String → Json → InitConnect) (f : FileOutcome)
    (st : MState) : PyResult (List ToolModel) × MState :=
  let inner : PyResult (List ToolModel) × MState :=
    match f with
    | .missing => (.raised "FileNotFoundError", st)
    | .badJson => (.raised "json.decoder.JSONDecodeError", st)
    | .content j =>
      match initConfig env j st with
      | (r, st', _) => (r, st')
  match inner with
  | (.raised _, st') => (.ret [], st')
  | (.ret ts, st') => (.ret ts, st')

/-
Embedding of MCPClient.execute_function and MCPClient.reconnect
(mcp_manager.py lines 546-626).  Successive reconnect attempts are
supplied by the environment as a list of connection outcomes, which also
serves as the structural fuel of the replay recursion.
-/

/-- Outcome of one reconnect attempt (connection_server on the stored
descriptor): a fresh session behaviour or a connection failure. -/
inductive ConnectOutcome where
  | ok (beh : SessionBeh)
  | fail (e : String)

/-- Join text parts with a blank line, as execute_function does. -/
def joinTexts (xs : List String) : String :=
  String.intercalate "\n\n" xs

/-- Tool-name dispatch of execute_function once the session passed (or
skipped) the liveness probe (mcp_manager.py lines 578-626).  The
list_resources and read_resource branches convert their own exceptions to
Error strings; the generic call_tool branch has no local handler, so a
remote exception propagates out of execute_function. -/
def dispatch (c : ClientM) (tool_name : String) (tool_args : List (String × Json)) :
    PyResult String :=
  if tool_name = "list_resources" then
    match c.session with
    | some s =>
      match s.listRes with
      | .ret rs => .ret (if rs ≠ [] then joinTexts rs else "No resources found")
      | .raised e => .ret ("Error: " ++ e)
    | none => .ret "Session is not alive"
  else if tool_name = "read_resource" then
    match pyGet tool_args "uri" with
    | none => .ret "Error: URI is required for read_resource"
    | some u =>
      if pyTruthy u = false then .ret "Error: URI is required for read_resource"
      else
        match c.session with
        | some s =>
          match s.readRes u with
          | .ret contents =>
            let texts := contents.filterMap (fun r => match r with
              | .text t => some t
              | .blob => none)
            .ret (if texts ≠ [] then joinTexts texts else "Failed to read resource")
          | .raised e => .ret ("Error: " ++ e)
        | none => .ret "Session is not alive"
  else
    match c.session with
    | some s =>
      match s.callTool tool_name tool_args with
      | .ret content =>
        let texts := (content.filter (fun i => i.ctype = "text")).map (fun i => i.text)
        .ret (if texts ≠ [] then joinTexts texts else "execute error")
      | .raised e => .raised e
    | none => .ret "Session is not alive"

/-- Embedding of MCPClient.execute_function (mcp_manager.py lines
557-626).  The probe step pings a present session; a probe failure enters
the reconnect handler, which installs the replacement under the same
identifier and replays the call on it, converting any exception of the
reconnect-and-replay into an error string.  The result carries the final
clients map and the number of reconnect attempts performed. -/
def execute_function (clients : ClientMap) (c : ClientM) (env : List ConnectOutcome)
    (tool_name : String) (tool_args : List (String × Json)) :
    PyResult String × ClientMap × Nat :=
    let pingFails : Bool := match c.session with
      | some s => !s.pingOk
      | none => false
    if pingFails then
      match c.clientId with
      | none =>
        (.ret "Session reconnect (client creation) exception: client_id is None", clients, 0)
      | some cid =>
        match env with
        | [] =>
          -- The environment ran out of connection outcomes; unreachable
          -- under the scenarios stated below.
          (.raised "model: no connection outcome supplied", clients, 0)
        | .fail e :: _ =>
          (.ret ("Session reconnect (client creation) exception: " ++ e), clients, 1)
        | .ok beh :: env' =>
          let newC : ClientM := ⟨some cid, some beh⟩
          let clients' := clientsSet clients cid newC
          match execute_function clients' newC env' tool_name tool_args with
          | (.raised e, cs, n) =>
            (.ret ("Session reconnect (client creation) exception: " ++ e), cs, n + 1)
          | (.ret s, cs, n) => (.ret s, cs, n + 1)
    else
      (dispatch c tool_name tool_args, clients, 0)
termination_by env.length

/-
Embedding of the read-through tool cache (_get_cached_callable_tools,
mcp_utils.py lines 34-40).  Object identity of the returned adapter map
is modelled by an allocation counter: create_callable_mcp_tools builds a
fresh dict object on every invocation, and its invocations (each of which
reloads the config and re-contacts the servers) are logged.
-/

/-- State of the module-level cache: the path-to-object map, the next
fresh object identity, and the log of create_callable_mcp_tools
invocations. -/
structure CacheState where
  cache : List (String × Nat)
  nextId : Nat
  createLog : List String
deriving Repr, DecidableEq

/-- Lookup of a path in the cache dict. -/
def cacheGet (m : List (String × Nat)) (k : String) : Option Nat :=
  match m with
  | [] => none
  | (k', v) :: rest => if k' = k then some v else cacheGet rest k

/-- Model of create_callable_mcp_tools (mcp_utils.py lines 243-255): each
invocation allocates a fresh adapter-map object (load_mcp_config absorbs
its own failures, so the call itself never raises) and re-runs the whole
connect pipeline, which the log records. -/
def create_callable_mcp_tools (p : String) (st : CacheState) : Nat × CacheState :=
  (st.nextId, ⟨st.cache, st.nextId + 1, st.createLog ++ [p]⟩)

/-- Embedding of _get_cached_callable_tools (mcp_utils.py lines 34-40):
populate the cache under the given path string on a miss, then return the
cached object. -/
def get_cached_callable_tools (p : String) (st : CacheState) : Nat × CacheState :=
  match cacheGet st.cache p with
  | some oid => (oid, st)
  | none =>
    match create_callable_mcp_tools p st with
    | (oid, st') => (oid, ⟨st'.cache ++ [(p, oid)], st'.nextId, st'.createLog⟩)

/-
Embedding of check_mcp_format
(src/tools/function/validator/validate_tools.py lines 67-121).  The
parameters attribute of a tool is either absent, a dict of JSON values,
or a list of dicts (the two shapes BaseTool.parameters admits).  The
Python membership and iteration primitives are embedded with their
dynamic-typing behaviour, including the TypeError raised when membership
is tested against a non-container value.
-/

/-- Python membership test item in container, for JSON-shaped values: key
membership for dicts, which raises TypeError on an unhashable item (a
list or a dict); element equality for lists; substring for strings with
TypeError on a non-string item; TypeError on any other container. -/
def pyContains (container : Json) (item : Json) : PyResult Bool :=
  match container with
  | .obj o =>
    match item with
    | .str s => .ret (hasKey o s)
    | .arr _ => .raised "TypeError: unhashable type: list"
    | .obj _ => .raised "TypeError: unhashable type: dict"
    | _ => .ret false
  | .arr xs => .ret (xs.any (fun x => Json.eqb x item))
  | .str s =>
    match item with
    | .str t => .ret (if t = "" then true else pyReplace s t "" != s)
    | _ => .raised "TypeError: in string requires string as left operand"
  | _ => .raised "TypeError: argument is not iterable"

/-- Python iteration over a JSON-shaped value: list elements, string
characters, dict keys; TypeError otherwise. -/
def pyIter (j : Json) : PyResult (List Json) :=
  match j with
  | .arr xs => .ret xs
  | .str s => .ret (s.data.map (fun ch => .str (String.singleton ch)))
  | .obj o => .ret (o.map (fun p => .str p.1))
  | _ => .raised "TypeError: object is not iterable"

/-- Python str() of a JSON-shaped value, used by the issue messages. -/
def pyStr : Json → String
  | .null => "None"
  | .bool true => "True"
  | .bool false => "False"
  | .num n => toString n
  | .str s => s
  | j => Json.dumps j

/-- The parameters attribute of a tool, restricted to the two shapes that
BaseTool.parameters declares: a dict, or a list of dicts. -/
inductive PyParams where
  | dict (o : List (String × Json))
  | list (xs : List (List (String × Json)))

/-- Structured result returned by check_mcp_format (the parameters echo is
omitted: no claim observes it). -/
structure CheckResult where
  valid : Bool
  issues : List String
  suggestions : List String
deriving Repr, DecidableEq

/-- Python membership of a string key in a PyParams value: key membership
for the dict shape; for a list of dicts the string never equals a dict
element, so the test is always false. -/
def paramsHasField (ps : PyParams) (k : String) : Bool :=
  match ps with
  | .dict o => hasKey o k
  | .list _ => false

/-- Issue collection of the per-parameter type check. -/
def propIssues : List (String × Json) → PyResult (List String × List String)
  | [] => .ret ([], [])
  | (name, prop) :: rest =>
    match pyContains prop (.str "type") with
    | .raised e => .raised e
    | .ret b =>
      match propIssues rest with
      | .raised e => .raised e
      | .ret (is, ss) =>
        if b = false then
          .ret (("Parameter " ++ name ++ " is missing the type field.") :: is,
                ("Please add the type field for parameter " ++ name ++ ".") :: ss)
        else .ret (is, ss)

/-- Issue collection of the required-in-properties check. -/
def requiredIssues (props : Json) : List Json → PyResult (List String × List String)
  | [] => .ret ([], [])
  | req :: rest =>
    match pyContains props req with
    | .raised e => .raised e
    | .ret b =>
      match requiredIssues props rest with
      | .raised e => .raised e
      | .ret (is, ss) =>
        if b = false then
          .ret (("Required parameter " ++ pyStr req ++ " is not defined in properties.") :: is,
                ("Please add the required parameter " ++ pyStr req ++ " in properties.") :: ss)
        else .ret (is, ss)

/-- Top-level fields reported missing by check_mcp_format, in check
order. -/
def topFieldsMissing (ps : PyParams) : List String :=
  ["type", "properties", "required"].filter (fun k => paramsHasField ps k = false)

/-- Per-parameter type check of check_mcp_format (the loop over
properties items, guarded by the membership test of properties). -/
def propsBlock (ps : PyParams) : PyResult (List String × List String) :=
  if paramsHasField ps "properties" then
    match ps with
    | .dict o =>
      match pyGet o "properties" with
      | some (.obj props) => propIssues props
      | some _ => .raised "AttributeError: object has no attribute items"
      | none => .ret ([], [])
    | .list _ => .ret ([], [])
  else .ret ([], [])

/-- Required-in-properties check of check_mcp_format (the loop over the
required entries, guarded by the membership test of required). -/
def reqBlock (ps : PyParams) : PyResult (List String × List String) :=
  if paramsHasField ps "required" then
    match ps with
    | .dict o =>
      match pyIter ((pyGet o "required").getD .null) with
      | .ret reqs => requiredIssues ((pyGet o "properties").getD (.obj [])) reqs
      | .raised e => .raised e
    | .list _ => .ret ([], [])
  else .ret ([], [])

/-- Final record assembly of check_mcp_format: the three issue groups in
check order, matching suggestions, and a valid flag that holds exactly
when no issue was found. -/
def assembleResult (m : List String) (p2 p3 : List String × List String) : CheckResult :=
  ⟨(m.map (fun k => "Missing top-level field: " ++ k) ++ p2.1 ++ p3.1).length == 0,
   m.map (fun k => "Missing top-level field: " ++ k) ++ p2.1 ++ p3.1,
   m.map (fun k => "Please add the " ++ k ++ " field in parameters.") ++ p2.2 ++ p3.2⟩

/-- The structured result for an absent parameters attribute. -/
def noParamsResult : CheckResult :=
  ⟨false,
   ["No parameters attribute found, unable to check parameter format."],
   ["Please add a parameters attribute to the tool."]⟩

/-- Embedding of check_mcp_format (validate_tools.py lines 67-121):
absent parameters short-circuit to a single issue; otherwise the
top-level fields, the per-parameter type fields and the required entries
are checked in that order, one suggestion per issue, and the result is
valid exactly when no issue was collected. -/
def check_mcp_format (params : Option PyParams) : PyResult CheckResult :=
  match params with
  | none => .ret noParamsResult
  | some ps =>
    match propsBlock ps with
    | .raised e => .raised e
    | .ret p2 =>
      match reqBlock ps with
      | .raised e => .raised e
      | .ret p3 => .ret (assembleResult (topFieldsMissing ps) p2 p3)

/-
Helper lemmas shared by the claim theorems.
-/

/-- Key membership agrees with lookup success. -/
theorem hasKey_eq_isSome (o : List (String × Json)) (k : String) :
    hasKey o k = (pyGet o k).isSome := by
  induction o with
  | nil => rfl
  | cons p rest ih =>
    obtain ⟨k', v⟩ := p
    by_cases h : k' = k
    · simp [hasKey, pyGet, h]
    · simp [hasKey, pyGet, h] at ih ⊢
      exact ih

/-- Setting a key makes it readable. -/
theorem pyGet_pySet_self (o : List (String × Json)) (k : String) (v : Json) :
    pyGet (pySet o k v) k = some v := by
  induction o with
  | nil => simp [pySet, pyGet]
  | cons p rest ih =>
    obtain ⟨k', v'⟩ := p
    by_cases h : k' = k
    · simp [pySet, pyGet, h]
    · simp [pySet, pyGet, h]
      exact ih

/-- Setting one key leaves membership of other keys unchanged. -/
theorem hasKey_pySet_ne (o : List (String × Json)) (k k' : String) (v : Json)
    (h : k ≠ k') : hasKey (pySet o k v) k' = hasKey o k' := by
  induction o with
  | nil => simp [pySet, hasKey, h]
  | cons p rest ih =>
    obtain ⟨k0, v0⟩ := p
    by_cases h0 : k0 = k
    · simp [pySet, hasKey, h0]
    · simp [pySet, hasKey, h0] at ih ⊢
      rw [ih]

/-- A freshly appended cache entry is found when the key was absent. -/
theorem cacheGet_append (l : List (String × Nat)) (p : String) (v : Nat)
    (h : cacheGet l p = none) : cacheGet (l ++ [(p, v)]) p = some v := by
  induction l with
  | nil => simp [cacheGet]
  | cons q rest ih =>
    obtain ⟨k, w⟩ := q
    by_cases hk : k = p
    · simp [cacheGet, hk] at h
    · simp [cacheGet, hk] at h ⊢
      exact ih h

/-
C3.  The three call encodings of the adapter.
-/

/-- C3: the three call encodings of an adapter, a keyword map, the pair of
string fragments, and a single positional dict, all dispatch the same
canonical argument payload to the owning session: the serialized strings
of the keyword and positional encodings coincide, the fragment encoding
serializes the same bindings with the kwargs fragment merged first and
the args fragment second, and the decoded payloads handed to
execute_function by ToolClass.call are equal as Python dicts (the same
bindings up to insertion order). -/
theorem argument_normalization_roundtrip :
    normalize_payload [] [("a", Json.num 1), ("b", Json.str "x")] =
      PyResult.ret "\x7b\"a\": 1, \"b\": \"x\"\x7d" ∧
    normalize_payload [Json.obj [("a", Json.num 1), ("b", Json.str "x")]] [] =
      PyResult.ret "\x7b\"a\": 1, \"b\": \"x\"\x7d" ∧
    normalize_payload []
      [("args", Json.str "\x7b\"a\":1\x7d"), ("kwargs", Json.str "\x7b\"b\":\"x\"\x7d")] =
      PyResult.ret "\x7b\"b\": \"x\", \"a\": 1\x7d" ∧
    toolCallDispatchArgs "\x7b\"a\": 1, \"b\": \"x\"\x7d" =
      some (Json.obj [("a", Json.num 1), ("b", Json.str "x")]) ∧
    toolCallDispatchArgs "\x7b\"b\": \"x\", \"a\": 1\x7d" =
      some (Json.obj [("b", Json.str "x"), ("a", Json.num 1)]) ∧
    [("a", Json.num 1), ("b", Json.str "x")].Perm
      [("b", Json.str "x"), ("a", Json.num 1)] :=
  ⟨rfl, rfl, rfl, rfl, rfl, List.Perm.swap ("b", Json.str "x") ("a", Json.num 1) []⟩

/-
C10.  An empty server entry passes validation and is routed to stdio.
-/

/-- C10: a config whose mcpServers maps a name to the empty dict passes
is_valid_mcp_servers, initConfig proceeds past validation and attempts a
connection for that entry, and connection_server routes the empty
descriptor down the stdio subprocess path, although it declares neither
the command shape nor the url shape of a ServerDescriptor. -/
theorem empty_server_entry_accepted :
    is_valid_mcp_servers (Json.obj [("mcpServers", Json.obj [("srv", Json.obj [])])]) = true ∧
    connectionRoute [] = Route.stdio ∧
    isCommandDescriptor [] = false ∧
    isUrlDescriptor [] = false ∧
    (initConfig (fun _ _ => InitConnect.fail "spawn failed")
      (Json.obj [("mcpServers", Json.obj [("srv", Json.obj [])])]) ⟨[], 0⟩).2.2 = ["srv"] :=
  ⟨rfl, rfl, rfl, rfl, rfl⟩

/-
C8.  Fragment parse-failure handling.
-/

/-- C8 counterexample: the claim says each fragment that fails JSON
parsing is retried after the equals-to-colon conversion.  The args
fragment here fails to parse and its converted form parses to a dict, so
a retry would contribute the binding of a; the code drops the args
fragment without the retry, and the dispatched payload holds only the
kwargs binding. -/
theorem args_fragment_not_retried :
    json_loads "\x7b\"a\"=\"1\"\x7d" = none ∧
    json_loads (fixFragment "\x7b\"a\"=\"1\"\x7d") = some (Json.obj [("a", Json.str "1")]) ∧
    normalize_payload []
      [("args", Json.str "\x7b\"a\"=\"1\"\x7d"), ("kwargs", Json.str "\x7b\"b\":\"x\"\x7d")] =
      PyResult.ret "\x7b\"b\": \"x\"\x7d" :=
  ⟨rfl, rfl, rfl⟩

/-
C9 counterexample.
-/

/-- C9 counterexample: the claim says the schema format check never
raises for any tool object, but a property sub-schema that is a boolean
(a shape is_tool_schema accepts, so such a BaseTool is constructible)
makes the membership test for its type field raise TypeError. -/
theorem check_mcp_format_raises_on_bool_subschema :
    check_mcp_format (some (PyParams.dict [("type", Json.str "object"),
      ("properties", Json.obj [("q", Json.bool true)]), ("required", Json.arr [])])) =
      PyResult.raised "TypeError: argument is not iterable" :=
  rfl

/-
C1.  What load_mcp_config does on its failure paths.
-/

/-- A connection environment in which every attempt fails. -/
def envFail : String → Json → InitConnect :=
  fun _ _ => InitConnect.fail "connection refused"

/-- C1 counterexample: the claim says a load with a missing file fails
with a raised ConfigError to its direct caller; the code catches the
exception and returns the empty list, a normal result. -/
theorem load_missing_returns_empty :
    load_mcp_config envFail FileOutcome.missing ⟨[], 0⟩ =
      (PyResult.ret [], (⟨[], 0⟩ : MState)) :=
  rfl

/-- C1 amended: on a missing file, malformed JSON content, or a config
failing the shape check, load_mcp_config catches the failure internally
(logging it) and returns the empty list, a normal result; no error is
raised to its direct caller. -/
theorem load_error_paths_return_empty (env : String → Json → InitConnect) (st : MState)
    (j : Json) (h : is_valid_mcp_servers j = false) :
    load_mcp_config env FileOutcome.missing st = (PyResult.ret [], st) ∧
    load_mcp_config env FileOutcome.badJson st = (PyResult.ret [], st) ∧
    load_mcp_config env (FileOutcome.content j) st = (PyResult.ret [], st) := by
  refine ⟨rfl, rfl, ?_⟩
  unfold load_mcp_config initConfig
  simp [h]

/-- Witness for the amended C1 theorem at a concrete shape-check
failure. -/
theorem load_error_paths_return_empty_witness :
    load_mcp_config envFail (FileOutcome.content (Json.obj [])) ⟨[], 0⟩ =
      (PyResult.ret [], (⟨[], 0⟩ : MState)) :=
  (load_error_paths_return_empty envFail ⟨[], 0⟩ (Json.obj []) rfl).2.2

/-
C4.  The adapter boundary converts every failure into a string.
-/

/-- C4: every invocation of a wrapped adapter returns a string and never
raises; whenever the body below the boundary (payload normalization plus
the tool call) raises, the result is the descriptive string Tool call
error followed by the detail. -/
theorem adapter_never_raises (call : String → PyResult String) (posArgs : List Json)
    (kwargs : List (String × Json)) :
    (∃ s, wrapper call posArgs kwargs = PyResult.ret s) ∧
    (∀ e, wrapper_inner call posArgs kwargs = PyResult.raised e →
      wrapper call posArgs kwargs = PyResult.ret ("Tool call error: " ++ e)) := by
  constructor
  · cases h : wrapper_inner call posArgs kwargs with
    | ret s => exact ⟨s, by unfold wrapper; rw [h]⟩
    | raised e => exact ⟨"Tool call error: " ++ e, by unfold wrapper; rw [h]⟩
  · intro e he
    unfold wrapper
    rw [he]

/-- Witness for the C4 theorem: a tool call that raises is surfaced as
the prefixed error string. -/
theorem adapter_never_raises_witness :
    wrapper (fun _ => PyResult.raised "boom") [] [] = PyResult.ret "Tool call error: boom" :=
  (adapter_never_raises (fun _ => PyResult.raised "boom") [] []).2 "boom" rfl

/-
C5.  Invalid config shapes are rejected before any connection work.
-/

/-- C5: a config failing the shape check makes initConfig raise
ValueError with the registry state unchanged and no connection attempted;
the malformed shapes named by the claim (missing mcpServers, non-dict
mcpServers, a non-dict server entry, a non-string command, a command
without a list-valued args) all fail the shape check. -/
theorem initConfig_invalid_raises (env : String → Json → InitConnect) (config : Json)
    (st : MState) (h : is_valid_mcp_servers config = false) :
    initConfig env config st =
      (PyResult.raised "ValueError: Config of mcpservers is not valid", st, []) ∧
    is_valid_mcp_servers (Json.obj []) = false ∧
    is_valid_mcp_servers (Json.obj [("mcpServers", Json.str "x")]) = false ∧
    is_valid_mcp_servers (Json.obj [("mcpServers", Json.obj [("s", Json.num 1)])]) = false ∧
    is_valid_mcp_servers (Json.obj [("mcpServers",
      Json.obj [("s", Json.obj [("command", Json.num 1), ("args", Json.arr [])])])]) = false ∧
    is_valid_mcp_servers (Json.obj [("mcpServers",
      Json.obj [("s", Json.obj [("command", Json.str "npx")])])]) = false := by
  refine ⟨?_, rfl, rfl, rfl, rfl, rfl⟩
  unfold initConfig
  simp [h]

/-- Witness for the C5 theorem at the empty (mcpServers-less) config. -/
theorem initConfig_invalid_raises_witness :
    initConfig envFail (Json.obj []) ⟨[], 0⟩ =
      (PyResult.raised "ValueError: Config of mcpservers is not valid",
       (⟨[], 0⟩ : MState), []) :=
  (initConfig_invalid_raises envFail (Json.obj []) ⟨[], 0⟩ rfl).1

/-
C7.  The read-through cache is idempotent.
-/

/-- A cache hit returns the stored object and leaves the state alone. -/
theorem get_cached_hit (q : String) (s : CacheState) (oid : Nat)
    (h : cacheGet s.cache q = some oid) : get_cached_callable_tools q s = (oid, s) := by
  unfold get_cached_callable_tools
  rw [h]

/-- C7: loading tools through the cache twice under the same config path
returns the identical adapter-map object the second time, with the state
(and in particular the log of create_callable_mcp_tools invocations, each
of which re-contacts servers) unchanged; the first call durably stores
the object under the path. -/
theorem cached_tools_idempotent (p : String) (st : CacheState) :
    cacheGet ((get_cached_callable_tools p st).2).cache p =
      some (get_cached_callable_tools p st).1 ∧
    get_cached_callable_tools p (get_cached_callable_tools p st).2 =
      ((get_cached_callable_tools p st).1, (get_cached_callable_tools p st).2) ∧
    ((get_cached_callable_tools p (get_cached_callable_tools p st).2).2).createLog =
      ((get_cached_callable_tools p st).2).createLog := by
  have hmem : cacheGet ((get_cached_callable_tools p st).2).cache p =
      some (get_cached_callable_tools p st).1 := by
    unfold get_cached_callable_tools
    cases h : cacheGet st.cache p with
    | some oid => simp [h]
    | none =>
      simp [h, create_callable_mcp_tools]
      exact cacheGet_append st.cache p st.nextId h
  have hsecond := get_cached_hit p (get_cached_callable_tools p st).2
    (get_cached_callable_tools p st).1 hmem
  exact ⟨hmem, hsecond, by rw [hsecond]⟩

/-
C2.  Reconnect-and-replay on a failed liveness probe.
-/

/-- C2: when the liveness probe of the current session fails, one
reconnect is performed under the same client identifier.  If the
replacement session is live, the clients map entry for that identifier
holds the new session, the replayed call result is returned, and exactly
one reconnect was performed; a replayed call that raises is also
converted to an error string.  If the reconnect itself fails, the error
text is returned as a string (never a raised exception) and the map is
unchanged. -/
theorem execute_reconnect_once (clients : ClientMap) (c : ClientM) (cid : String)
    (beh0 : SessionBeh) (env' : List ConnectOutcome) (tool_name : String)
    (tool_args : List (String × Json))
    (hid : c.clientId = some cid) (hs : c.session = some beh0) (hping : beh0.pingOk = false) :
    (∀ beh r, beh.pingOk = true →
      dispatch ⟨some cid, some beh⟩ tool_name tool_args = PyResult.ret r →
      execute_function clients c (ConnectOutcome.ok beh :: env') tool_name tool_args =
        (PyResult.ret r, clientsSet clients cid ⟨some cid, some beh⟩, 1)) ∧
    (∀ beh e, beh.pingOk = true →
      dispatch ⟨some cid, some beh⟩ tool_name tool_args = PyResult.raised e →
      execute_function clients c (ConnectOutcome.ok beh :: env') tool_name tool_args =
        (PyResult.ret ("Session reconnect (client creation) exception: " ++ e),
         clientsSet clients cid ⟨some cid, some beh⟩, 1)) ∧
    (∀ e rest,
      execute_function clients c (ConnectOutcome.fail e :: rest) tool_name tool_args =
        (PyResult.ret ("Session reconnect (client creation) exception: " ++ e), clients, 1)) := by
  refine ⟨?_, ?_, ?_⟩
  · intro beh r hb hd
    have hrec : execute_function (clientsSet clients cid ⟨some cid, some beh⟩)
        (⟨some cid, some beh⟩ : ClientM) env' tool_name tool_args =
        (dispatch ⟨some cid, some beh⟩ tool_name tool_args,
         clientsSet clients cid ⟨some cid, some beh⟩, 0) := by
      unfold execute_function
      simp [hb]
    unfold execute_function
    simp [hs, hid, hping, hrec, hd]
  · intro beh e hb hd
    have hrec : execute_function (clientsSet clients cid ⟨some cid, some beh⟩)
        (⟨some cid, some beh⟩ : ClientM) env' tool_name tool_args =
        (dispatch ⟨some cid, some beh⟩ tool_name tool_args,
         clientsSet clients cid ⟨some cid, some beh⟩, 0) := by
      unfold execute_function
      simp [hb]
    unfold execute_function
    simp [hs, hid, hping, hrec, hd]
  · intro e rest
    unfold execute_function
    simp [hs, hid, hping]

/-- A session whose liveness probe fails. -/
def behDead : SessionBeh :=
  ⟨false, fun _ _ => .raised "dead", .ret [], fun _ => .ret []⟩

/-- A live session answering every call with one text part. -/
def behLive : SessionBeh :=
  ⟨true, fun _ _ => .ret [⟨"text", "hi"⟩], .ret [], fun _ => .ret []⟩

/-- A registered client holding the dead session. -/
def clientDead : ClientM := ⟨some "srv_uuid-0", some behDead⟩

/-- Witness for the C2 theorem on a concrete dead session: the successful
replacement serves the replayed call and is installed in the map, and a
failed reconnect yields the error string. -/
theorem execute_reconnect_once_witness :
    execute_function [("srv_uuid-0", clientDead)] clientDead [ConnectOutcome.ok behLive] "t" [] =
      (PyResult.ret "hi",
       [("srv_uuid-0", (⟨some "srv_uuid-0", some behLive⟩ : ClientM))], 1) ∧
    execute_function [("srv_uuid-0", clientDead)] clientDead [ConnectOutcome.fail "boom"] "t" [] =
      (PyResult.ret "Session reconnect (client creation) exception: boom",
       [("srv_uuid-0", clientDead)], 1) := by
  constructor
  · exact (execute_reconnect_once [("srv_uuid-0", clientDead)] clientDead "srv_uuid-0"
      behDead [] "t" [] rfl rfl rfl).1 behLive "hi" rfl rfl
  · exact (execute_reconnect_once [("srv_uuid-0", clientDead)] clientDead "srv_uuid-0"
      behDead [] "t" [] rfl rfl rfl).2.2 "boom" []

/-- C8 amended: when an adapter is invoked with both fragments, only the
kwargs fragment that fails JSON parsing is retried after the
equals-to-colon conversion (and silently dropped when the retry also
fails); the args fragment that fails JSON parsing, or parses to a
non-dict, is silently dropped with no retry; in each case the other
bindings are still dispatched. -/
theorem fragment_retry_asymmetry (sa sk : String) (p : List (String × Json)) :
    (json_loads sa = none → parseArgsFragment (Json.str sa) p = PyResult.ret p) ∧
    (∀ j, json_loads sa = some j → (∀ o, j ≠ Json.obj o) →
      parseArgsFragment (Json.str sa) p = PyResult.ret p) ∧
    (json_loads sk = none → json_loads (fixFragment sk) = none →
      parseKwargsFragment (Json.str sk) p = PyResult.ret p) ∧
    (∀ o, pyStrip sk ≠ "" → json_loads sk = none →
      json_loads (fixFragment sk) = some (Json.obj o) →
      parseKwargsFragment (Json.str sk) p = PyResult.ret (pyUpdateObj p o)) := by
  refine ⟨?_, ?_, ?_, ?_⟩
  · intro h
    unfold parseArgsFragment
    by_cases ht : pyTruthy (Json.str sa) = true
    · by_cases hstrip : pyStrip sa = ""
      · simp [ht, hstrip]
      · simp [ht, hstrip, h]
    · simp [Bool.not_eq_true] at ht
      simp [ht]
  · intro j hj hno
    unfold parseArgsFragment
    by_cases ht : pyTruthy (Json.str sa) = true
    · by_cases hstrip : pyStrip sa = ""
      · simp [ht, hstrip]
      · cases j with
        | obj o => exact absurd rfl (hno o)
        | null => simp [ht, hstrip, hj]
        | bool b => simp [ht, hstrip, hj]
        | num n => simp [ht, hstrip, hj]
        | str s => simp [ht, hstrip, hj]
        | arr xs => simp [ht, hstrip, hj]
    · simp [Bool.not_eq_true] at ht
      simp [ht]
  · intro h1 h2
    unfold parseKwargsFragment
    by_cases ht : pyTruthy (Json.str sk) = true
    · by_cases hstrip : pyStrip sk = ""
      · simp [ht, hstrip]
      · simp [ht, hstrip, h1, h2]
    · simp [Bool.not_eq_true] at ht
      simp [ht]
  · intro o hsns h1 h2
    have hne : sk ≠ "" := by
      intro h0
      apply hsns
      rw [h0]
      rfl
    have ht : pyTruthy (Json.str sk) = true := by
      simp [pyTruthy, hne]
    unfold parseKwargsFragment
    simp [ht, hsns, h1, h2, pyUpdate]

/-- Witness for the amended C8 theorem: an unparseable args fragment is
dropped, and a kwargs fragment cured by the conversion is merged. -/
theorem fragment_retry_asymmetry_witness :
    parseArgsFragment (Json.str "notjson") [] = PyResult.ret [] ∧
    parseKwargsFragment (Json.str "\x7b\"b\"=\"x\"\x7d") [] =
      PyResult.ret [("b", Json.str "x")] := by
  constructor
  · exact (fragment_retry_asymmetry "notjson" "" []).1 rfl
  · exact (fragment_retry_asymmetry "notjson" "\x7b\"b\"=\"x\"\x7d" []).2.2.2
      [("b", Json.str "x")] (by decide) rfl rfl

/-
C6.  Sanitized operation schemas.
-/

/-- C6: for every discovered operation, the registered parameter schema
holds exactly the keys type, properties and required, with required
defaulting to the empty list when absent upstream; sanitization raises
(so the operation is not registered) exactly when type or properties is
absent from the raw upstream schema. -/
theorem sanitized_schema_exact_keys (p : List (String × Json)) :
    (∀ c, sanitizeSchema p = PyResult.ret c →
      c.map Prod.fst = ["type", "properties", "required"] ∧
      (hasKey p "required" = false → pyGet c "required" = some (Json.arr []))) ∧
    ((hasKey p "type" = false ∨ hasKey p "properties" = false) →
      ∃ e, sanitizeSchema p = PyResult.raised e) ∧
    (hasKey p "type" = true → hasKey p "properties" = true →
      ∃ c, sanitizeSchema p = PyResult.ret c) := by
  have hty : hasKey (withRequiredDefault p) "type" = hasKey p "type" := by
    unfold withRequiredDefault
    by_cases h : hasKey p "required" <;>
      simp [h, hasKey_pySet_ne p "required" "type" (Json.arr []) (by decide)]
  have hpp : hasKey (withRequiredDefault p) "properties" = hasKey p "properties" := by
    unfold withRequiredDefault
    by_cases h : hasKey p "required" <;>
      simp [h, hasKey_pySet_ne p "required" "properties" (Json.arr []) (by decide)]
  refine ⟨?_, ?_, ?_⟩
  · intro c hc
    unfold sanitizeSchema at hc
    rw [hty, hpp] at hc
    by_cases hcond : hasKey p "type" = false ∨ hasKey p "properties" = false
    · simp [hcond] at hc
    · simp [hcond] at hc
      constructor
      · rw [← hc]
        rfl
      · intro hr
        rw [← hc]
        have hps : pyGet (withRequiredDefault p) "required" = some (Json.arr []) := by
          unfold withRequiredDefault
          simp [hr, pyGet_pySet_self]
        simp [pyGet, hps]
  · intro h
    refine ⟨"ValueError: Missing required fields in schema", ?_⟩
    unfold sanitizeSchema
    rw [hty, hpp]
    simp [h]
  · intro h1 h2
    refine ⟨[("type", (pyGet (withRequiredDefault p) "type").getD Json.null),
             ("properties", (pyGet (withRequiredDefault p) "properties").getD Json.null),
             ("required", (pyGet (withRequiredDefault p) "required").getD Json.null)], ?_⟩
    unfold sanitizeSchema
    rw [hty, hpp]
    simp [h1, h2]

/-- Witness for the C6 theorem on a schema without a required key: the
cleaned schema has exactly the three keys with required defaulted. -/
theorem sanitized_schema_exact_keys_witness :
    ([("type", Json.str "object"), ("properties", Json.obj []),
      ("required", Json.arr [])].map Prod.fst = ["type", "properties", "required"]) ∧
    pyGet [("type", Json.str "object"), ("properties", Json.obj []),
      ("required", Json.arr [])] "required" = some (Json.arr []) := by
  have h := (sanitized_schema_exact_keys [("type", Json.str "object"),
    ("properties", Json.obj [])]).1
    [("type", Json.str "object"), ("properties", Json.obj []), ("required", Json.arr [])] rfl
  exact ⟨h.1, h.2 rfl⟩

/-
C9.  Structured results of check_mcp_format.
-/

/-- Values against which a Python membership test cannot raise: dicts,
lists and strings. -/
def containsSafe : Json → Bool
  | .obj _ => true
  | .arr _ => true
  | .str _ => true
  | _ => false

/-- Values Python can hash, so testing their membership in a dict cannot
raise: everything except lists and dicts. -/
def pyHashable : Json → Bool
  | .arr _ => false
  | .obj _ => false
  | _ => true

/-- A parameters attribute on which check_mcp_format completes without an
exception: absent, a list of dicts, or a dict whose properties value (if
the key is present) is a dict of membership-safe sub-schemas and whose
required value (if present) is iterable with hashable entries (a list of
hashable values, a string, or a dict). -/
def wellShapedParams : Option PyParams → Bool
  | none => true
  | some (.list _) => true
  | some (.dict o) =>
    (match pyGet o "properties" with
     | none => true
     | some (.obj props) => props.all (fun q => containsSafe q.2)
     | some _ => false) &&
    (match pyGet o "required" with
     | none => true
     | some (.arr rs) => rs.all pyHashable
     | some (.str _) => true
     | some (.obj _) => true
     | some _ => false)

/-- Membership of the type key never raises on a membership-safe value. -/
theorem pyContains_str_type (j : Json) (h : containsSafe j = true) :
    ∃ b, pyContains j (Json.str "type") = PyResult.ret b := by
  cases j with
  | obj o => exact ⟨_, rfl⟩
  | arr xs => exact ⟨_, rfl⟩
  | str s => exact ⟨_, rfl⟩
  | null => simp [containsSafe] at h
  | bool b => simp [containsSafe] at h
  | num n => simp [containsSafe] at h

/-- The properties loop completes with matching issue and suggestion
counts when every sub-schema is membership safe. -/
theorem propIssues_ret (props : List (String × Json))
    (h : props.all (fun q => containsSafe q.2) = true) :
    ∃ is ss, propIssues props = PyResult.ret (is, ss) ∧ is.length = ss.length := by
  induction props with
  | nil => exact ⟨[], [], rfl, rfl⟩
  | cons q rest ih =>
    obtain ⟨name, prop⟩ := q
    simp only [List.all_cons, Bool.and_eq_true] at h
    obtain ⟨b, hb⟩ := pyContains_str_type prop h.1
    obtain ⟨is, ss, hrest, hlen⟩ := ih h.2
    unfold propIssues
    rw [hb, hrest]
    by_cases hbf : b = false
    · subst hbf
      exact ⟨("Parameter " ++ name ++ " is missing the type field.") :: is,
             ("Please add the type field for parameter " ++ name ++ ".") :: ss,
             rfl, by simp [hlen]⟩
    · have hbt : b = true := by
        cases b
        · exact absurd rfl hbf
        · rfl
      subst hbt
      exact ⟨is, ss, rfl, hlen⟩

/-- The required loop against a dict of properties completes with
matching issue and suggestion counts when every entry is hashable. -/
theorem requiredIssues_ret (reqs : List Json) (props : List (String × Json))
    (h : reqs.all pyHashable = true) :
    ∃ is ss, requiredIssues (Json.obj props) reqs = PyResult.ret (is, ss) ∧
      is.length = ss.length := by
  revert h
  induction reqs with
  | nil => exact fun _ => ⟨[], [], rfl, rfl⟩
  | cons req rest ih =>
    intro h
    simp only [List.all_cons, Bool.and_eq_true] at h
    obtain ⟨is, ss, hrest, hlen⟩ := ih h.2
    obtain ⟨b, hb⟩ : ∃ b, pyContains (Json.obj props) req = PyResult.ret b := by
      cases req with
      | str s => exact ⟨_, rfl⟩
      | null => exact ⟨_, rfl⟩
      | bool c => exact ⟨_, rfl⟩
      | num n => exact ⟨_, rfl⟩
      | arr ys => exact absurd h.1 (by simp [pyHashable])
      | obj oo => exact absurd h.1 (by simp [pyHashable])
    unfold requiredIssues
    rw [hb, hrest]
    by_cases hbf : b = false
    · subst hbf
      exact ⟨("Required parameter " ++ pyStr req ++ " is not defined in properties.") :: is,
             ("Please add the required parameter " ++ pyStr req ++ " in properties.") :: ss,
             rfl, by simp [hlen]⟩
    · have hbt : b = true := by
        cases b
        · exact absurd rfl hbf
        · rfl
      subst hbt
      exact ⟨is, ss, rfl, hlen⟩

/-- The properties block of check_mcp_format completes on well-shaped
parameters. -/
theorem propsBlock_ret (ps : PyParams) (h : wellShapedParams (some ps) = true) :
    ∃ is ss, propsBlock ps = PyResult.ret (is, ss) ∧ is.length = ss.length := by
  cases ps with
  | list xs => exact ⟨[], [], rfl, rfl⟩
  | dict o =>
    simp only [wellShapedParams, Bool.and_eq_true] at h
    obtain ⟨h1, _⟩ := h
    unfold propsBlock
    by_cases hk : paramsHasField (PyParams.dict o) "properties" = true
    · rw [if_pos hk]
      dsimp only
      cases hv : pyGet o "properties" with
      | none => exact ⟨[], [], rfl, rfl⟩
      | some v =>
        rw [hv] at h1
        cases v with
        | obj props => exact propIssues_ret props h1
        | null => simp at h1
        | bool b => simp at h1
        | num n => simp at h1
        | str s => simp at h1
        | arr ys => simp at h1
    · rw [if_neg hk]
      exact ⟨[], [], rfl, rfl⟩

/-- On well-shaped parameters the membership container of the required
check (the properties value, defaulted to the empty dict) is a dict. -/
theorem containerObj (o : List (String × Json))
    (h1 : (match pyGet o "properties" with
           | none => true
           | some (.obj props) => props.all (fun q => containsSafe q.2)
           | some _ => false) = true) :
    ∃ cp, (pyGet o "properties").getD (Json.obj []) = Json.obj cp := by
  cases hv : pyGet o "properties" with
  | none => exact ⟨[], rfl⟩
  | some v =>
    rw [hv] at h1
    cases v with
    | obj props => exact ⟨props, rfl⟩
    | null => simp at h1
    | bool b => simp at h1
    | num n => simp at h1
    | str s => simp at h1
    | arr ys => simp at h1

/-- The required block of check_mcp_format completes on well-shaped
parameters. -/
theorem reqBlock_ret (ps : PyParams) (h : wellShapedParams (some ps) = true) :
    ∃ is ss, reqBlock ps = PyResult.ret (is, ss) ∧ is.length = ss.length := by
  cases ps with
  | list xs => exact ⟨[], [], rfl, rfl⟩
  | dict o =>
    simp only [wellShapedParams, Bool.and_eq_true] at h
    obtain ⟨h1, h2⟩ := h
    obtain ⟨cp, hcp⟩ := containerObj o h1
    unfold reqBlock
    by_cases hk : paramsHasField (PyParams.dict o) "required" = true
    · rw [if_pos hk]
      dsimp only
      cases hv : pyGet o "required" with
      | none =>
        have hiso := hasKey_eq_isSome o "required"
        simp only [paramsHasField] at hk
        rw [hk, hv] at hiso
        simp at hiso
      | some r =>
        rw [hv] at h2
        simp only [Option.getD_some]
        cases r with
        | arr ys =>
          have hall : ys.all pyHashable = true := h2
          dsimp only [pyIter]
          rw [hcp]
          exact requiredIssues_ret ys cp hall
        | str s =>
          have hall : (s.data.map (fun ch => Json.str (String.singleton ch))).all
              pyHashable = true := by
            simp [List.all_eq_true, pyHashable]
          dsimp only [pyIter]
          rw [hcp]
          exact requiredIssues_ret (s.data.map (fun ch => Json.str (String.singleton ch)))
            cp hall
        | obj oo =>
          have hall : (oo.map (fun q => Json.str q.1)).all pyHashable = true := by
            rw [List.all_eq_true]
            intro x hx
            obtain ⟨q, _, rfl⟩ := List.mem_map.mp hx
            rfl
          dsimp only [pyIter]
          rw [hcp]
          exact requiredIssues_ret (oo.map (fun q => Json.str q.1)) cp hall
        | null => exact absurd h2 Bool.false_ne_true
        | bool b => exact absurd h2 Bool.false_ne_true
        | num n => exact absurd h2 Bool.false_ne_true
    · rw [if_neg hk]
      exact ⟨[], [], rfl, rfl⟩

/-- C9 amended: for every tool whose parameters attribute is well shaped
(absent, a list of dicts, or a dict with a dict of membership-safe
sub-schemas under properties and a required value that is iterable with
hashable entries), check_mcp_format returns a structured result without
raising, with exactly one suggestion per issue and valid true exactly
when the issue list is empty; an absent schema yields a single issue,
and the three named instances yield no issue, exactly the one
missing-type issue, and exactly the two issues of the claim,
respectively.  (For ill-shaped parameters, such as a boolean sub-schema
or an unhashable required entry, the check raises TypeError instead.) -/
theorem check_mcp_format_structured (params : Option PyParams)
    (h : wellShapedParams params = true) :
    (∃ r, check_mcp_format params = PyResult.ret r ∧
      r.issues.length = r.suggestions.length ∧
      (r.valid = true ↔ r.issues = [])) ∧
    check_mcp_format none = PyResult.ret noParamsResult ∧
    noParamsResult.issues.length = 1 ∧
    check_mcp_format (some (PyParams.dict [("type", Json.str "object"),
      ("properties", Json.obj [("q", Json.obj [("type", Json.str "string")])]),
      ("required", Json.arr [Json.str "q"])])) = PyResult.ret ⟨true, [], []⟩ ∧
    check_mcp_format (some (PyParams.dict [("type", Json.str "object"),
      ("properties", Json.obj [("q", Json.obj [])]),
      ("required", Json.arr [Json.str "q"])])) =
      PyResult.ret ⟨false, ["Parameter q is missing the type field."],
        ["Please add the type field for parameter q."]⟩ ∧
    check_mcp_format (some (PyParams.dict [("required", Json.arr [Json.str "missing"]),
      ("properties", Json.obj [])])) =
      PyResult.ret ⟨false,
        ["Missing top-level field: type",
         "Required parameter missing is not defined in properties."],
        ["Please add the type field in parameters.",
         "Please add the required parameter missing in properties."]⟩ := by
  refine ⟨?_, rfl, rfl, rfl, rfl, rfl⟩
  cases params with
  | none =>
    refine ⟨noParamsResult, rfl, rfl, ?_⟩
    simp [noParamsResult]
  | some ps =>
    obtain ⟨i2, s2, hp2, hl2⟩ := propsBlock_ret ps h
    obtain ⟨i3, s3, hp3, hl3⟩ := reqBlock_ret ps h
    refine ⟨assembleResult (topFieldsMissing ps) (i2, s2) (i3, s3), ?_, ?_, ?_⟩
    · unfold check_mcp_format
      dsimp only
      rw [hp2, hp3]
    · simp [assembleResult, hl2, hl3]
    · simp [assembleResult, List.length_eq_zero]

/-- Witness for the amended C9 theorem at a concrete well-shaped schema. -/
theorem check_mcp_format_structured_witness :
    ∃ r, check_mcp_format (some (PyParams.dict [("type", Json.str "object"),
      ("properties", Json.obj []), ("required", Json.arr [])])) = PyResult.ret r ∧
      r.issues.length = r.suggestions.length ∧ (r.valid = true ↔ r.issues = []) :=
  (check_mcp_format_structured (some (PyParams.dict [("type", Json.str "object"),
    ("properties", Json.obj []), ("required", Json.arr [])])) (by decide)).1
